import Mathlib

/-!
Verification of the Genie conversation client (`genie_ui2.py`): a shallow
embedding of its transport calls, polling loop, result extraction,
attachment classification, and chat-history handling, together with proofs
of the specified properties.
-/

namespace Genie

/-- JSON values, as exchanged with the Genie service. Objects are ordered
association lists, mirroring Python dicts as they appear in responses. -/
inductive Json where
  | null : Json
  | str : String → Json
  | num : Int → Json
  | bool : Bool → Json
  | arr : List Json → Json
  | obj : List (String × Json) → Json

/-- Python `d[k]` / `d.get(k)` / `k in d`: first binding of key `k`, `none`
when the value is not an object or the key is absent. -/
def Json.getKey : Json → String → Option Json
  | Json.obj fields, k => fields.lookup k
  | _, _ => none

/-- Python `d.get(k, default)`. -/
def Json.getKeyD (j : Json) (k : String) (d : Json) : Json :=
  (j.getKey k).getD d

/-- Successive key lookups, Python `j[k1][k2]...` as a partial function. -/
def jsonPath (j : Json) (path : List String) : Option Json :=
  path.foldl (fun acc k => acc.bind (fun v => v.getKey k)) (some j)

/-- An HTTP response as the `requests` library presents it: status code,
body text, and the parsed JSON body. -/
structure HttpResponse where
  status : Nat
  body : String
  json : Json

/-- The messages the client shows through `st.error` / raised exceptions on
failed calls, with exactly the data each call site interpolates into its
message. `fetchAttachmentFailed` has no fields because
`fetch_attachment` shows the fixed text "Failed to fetch attachment result". -/
inductive UiError where
  | startFailed : Nat → String → UiError
  | followupFailed : Nat → String → UiError
  | fetchAttachmentFailed : UiError
  | parseFailed : String → UiError
deriving DecidableEq

/-- Result of one single-request API call: the Python return value
(`res.json()` or `None`) together with the error shown, if any. -/
structure CallOutcome where
  ret : Option Json
  errorShown : Option UiError

/-- `start_conversation`: POST `/start-conversation`; on 200 returns the
parsed JSON, otherwise shows the status code and body and returns `None`. -/
def start_conversation (res : HttpResponse) : CallOutcome :=
  if res.status = 200 then ⟨some res.json, none⟩
  else ⟨none, some (UiError.startFailed res.status res.body)⟩

/-- `fetch_attachment`: GET `/query-result/{attachment_id}`; on 200 returns
the parsed JSON, otherwise shows a fixed message and returns `None`. -/
def fetch_attachment (res : HttpResponse) : CallOutcome :=
  if res.status = 200 then ⟨some res.json, none⟩
  else ⟨none, some UiError.fetchAttachmentFailed⟩

/-- `send_followup_message`: POST `/messages`; on 200 returns the parsed
JSON, otherwise shows the status code and body and returns `None`. -/
def send_followup_message (res : HttpResponse) : CallOutcome :=
  if res.status = 200 then ⟨some res.json, none⟩
  else ⟨none, some (UiError.followupFailed res.status res.body)⟩

/-- `status in ("COMPLETED", "FAILED")` on `message.get("status")`. -/
def isTerminalStatus : Option Json → Bool
  | some (Json.str s) => s = "COMPLETED" || s = "FAILED"
  | _ => false

/-- Outcome of `poll_genie_message`: the returned message, the
`Exception` raised on a non-200 response (carrying status and body), or
the `TimeoutError` raised when the deadline passes. -/
inductive PollResult where
  | ok : Json → PollResult
  | transportError : Nat → String → PollResult
  | timeout : PollResult

/-- The `while time.time() - start_time < timeout` loop of
`poll_genie_message`, in idealized time: each fetch is instantaneous and
each `time.sleep(poll_interval)` advances the clock by exactly
`poll_interval`, so iteration `i` begins at elapsed time `i * poll_interval`.
`service i` is the response to the `i`-th GET of the message resource.
Returns the loop's outcome together with the number of fetches issued. -/
def pollLoop (service : Nat → HttpResponse) (poll_interval timeout : Nat)
    (hi : 0 < poll_interval) (i : Nat) : PollResult × Nat :=
  if h : i * poll_interval < timeout then
    let r := service i
    if r.status ≠ 200 then (PollResult.transportError r.status r.body, 1)
    else if isTerminalStatus (r.json.getKey "status") then (PollResult.ok r.json, 1)
    else
      let p := pollLoop service poll_interval timeout hi (i + 1)
      (p.1, p.2 + 1)
  else (PollResult.timeout, 0)
termination_by timeout - i * poll_interval
decreasing_by
  have hsucc : (i + 1) * poll_interval = i * poll_interval + poll_interval :=
    Nat.succ_mul i poll_interval
  omega

/-- `poll_genie_message(space_id, conversation_id, message_id, ...)` with
its default `poll_interval=2, timeout=300` made explicit: repeatedly fetch
the message resource until its status is terminal, a fetch fails, or the
timeout elapses. -/
def poll_genie_message (service : Nat → HttpResponse)
    (poll_interval timeout : Nat) (hi : 0 < poll_interval) : PollResult :=
  (pollLoop service poll_interval timeout hi 0).1

/-- Number of GET requests `poll_genie_message` issues on a given run. -/
def poll_fetch_count (service : Nat → HttpResponse)
    (poll_interval timeout : Nat) (hi : 0 < poll_interval) : Nat :=
  (pollLoop service poll_interval timeout hi 0).2

/-- A pandas DataFrame at the granularity the client uses: the column names
passed to `pd.DataFrame` (the values `col["name"]`) and the row arrays. -/
structure DataFrame where
  columns : List Json
  data : List (List Json)

/-- `pd.DataFrame()`, the value returned from the `except` branch. -/
def DataFrame.empty : DataFrame := ⟨[], []⟩

/-- One row accepted by `pd.DataFrame(data, columns=...)`: a list whose
length matches the column count; anything else raises there. -/
def rowCells (width : Nat) : Json → Option (List Json)
  | Json.arr cells => if cells.length = width then some cells else none
  | _ => none

/-- The list comprehension `[col["name"] for col in columns]`; `none` marks
the `KeyError` raised when some element has no `name` key. -/
def namesOf : List Json → Option (List Json)
  | [] => some []
  | c :: cs =>
    match c.getKey "name" with
    | none => none
    | some n =>
      match namesOf cs with
      | none => none
      | some ns => some (n :: ns)

/-- The rows `pd.DataFrame` accepts for the given column count; `none`
marks the exception raised on a malformed or ragged data array. -/
def rowsOf (width : Nat) : List Json → Option (List (List Json))
  | [] => some []
  | r :: rs =>
    match rowCells width r with
    | none => none
    | some cells =>
      match rowsOf width rs with
      | none => none
      | some rest => some (cells :: rest)

/-- The `try` block of `extract_dataframe_from_genie_result`, with each
Python subscript that can raise made explicit: `.error` marks the raised
exception the `except` branch catches. -/
def parseGenieResult (genie_result : Json) : Except String DataFrame :=
  match genie_result.getKey "statement_response" with
  | none => Except.error "KeyError: statement_response"
  | some statement =>
    match statement.getKey "manifest" with
    | none => Except.error "KeyError: manifest"
    | some manifest =>
      match manifest.getKey "schema" with
      | none => Except.error "KeyError: schema"
      | some schema =>
        match schema.getKey "columns" with
        | none => Except.error "KeyError: columns"
        | some columnsJson =>
          match columnsJson with
          | Json.arr colJs =>
            match namesOf colJs with
            | none => Except.error "KeyError: name"
            | some columns =>
              match statement.getKey "result" with
              | none => Except.error "KeyError: result"
              | some result =>
                match result.getKey "data_array" with
                | none => Except.error "KeyError: data_array"
                | some dataJson =>
                  match dataJson with
                  | Json.arr rowJs =>
                    match rowsOf columns.length rowJs with
                    | none => Except.error "ValueError: DataFrame shape"
                    | some rows => Except.ok ⟨columns, rows⟩
                  | _ => Except.error "ValueError: DataFrame data"
          | _ => Except.error "TypeError: columns not a list"

/-- `extract_dataframe_from_genie_result`: parse the query result; any
raised exception is caught, an error is shown, and `pd.DataFrame()` (empty)
is returned instead of propagating the exception. -/
def extract_dataframe_from_genie_result (genie_result : Json) : DataFrame :=
  match parseGenieResult genie_result with
  | Except.ok df => df
  | Except.error _ => DataFrame.empty

/-- One attachment as `display_genie_message` renders it: either a text
payload (`attachment["text"]["content"]`) or a query payload
(`query_info["query"]`, `query_info.get("description", "")`,
`attachment.get("attachment_id")`). -/
inductive ExtractedAttachment where
  | text : Json → ExtractedAttachment
  | query : Json → Json → Option Json → ExtractedAttachment

/-- The per-attachment branch of the loop in `display_genie_message`:
`if "text" in attachment: ... elif "query" in attachment: ... ` with no
`else` branch. `.ok none` is an attachment with neither key (skipped);
`.error` marks a `KeyError` the loop would raise. -/
def classifyAttachment (a : Json) : Except String (Option ExtractedAttachment) :=
  match a.getKey "text" with
  | some t =>
    match t.getKey "content" with
    | some content => Except.ok (some (ExtractedAttachment.text content))
    | none => Except.error "KeyError: content"
  | none =>
    match a.getKey "query" with
    | some query_info =>
      match query_info.getKey "query" with
      | some sql =>
        Except.ok (some (ExtractedAttachment.query sql
          (query_info.getKeyD "description" (Json.str ""))
          (a.getKey "attachment_id")))
      | none => Except.error "KeyError: query"
    | none => Except.ok none

/-- The classification of one attachment when the loop does not raise,
`none` when it raises or skips the attachment. -/
def classified (a : Json) : Option ExtractedAttachment :=
  match classifyAttachment a with
  | Except.ok o => o
  | Except.error _ => none

/-- The `for attachment in attachments` loop of `display_genie_message`,
collecting what it renders in iteration order; stops at the first raised
`KeyError`. -/
def extractAttachments : List Json → Except String (List ExtractedAttachment)
  | [] => Except.ok []
  | a :: rest =>
    match classifyAttachment a with
    | Except.error e => Except.error e
    | Except.ok none => extractAttachments rest
    | Except.ok (some x) =>
      match extractAttachments rest with
      | Except.error e => Except.error e
      | Except.ok xs => Except.ok (x :: xs)

/-- The query-result fetches `display_genie_message` issues for one
attachment: the text branch fetches nothing; the query branch calls
`fetch_attachment` once with `attachment.get("attachment_id")`, after the
`query_info["query"]` subscript succeeded. -/
def attachmentFetches (a : Json) : List (Option Json) :=
  match a.getKey "text" with
  | some _ => []
  | none =>
    match a.getKey "query" with
    | some query_info =>
      match query_info.getKey "query" with
      | some _ => [a.getKey "attachment_id"]
      | none => []
    | none => []

/-- One record of `genie_chat_history.json`, as both submit handlers build
it: `{"prompt": ..., "conversation_id": ..., "message_id": ...,
"space_id": ..., "timestamp": time.time(), "user": st.user.email}`. -/
structure HistoryEntry where
  prompt : String
  conversation_id : Json
  message_id : Json
  space_id : String
  timestamp : Nat
  user : String

/-- `append_chat_history`: load the stored history, `history.append(entry)`,
write it back. On the stored list this is appending one entry at the end. -/
def append_chat_history (history : List HistoryEntry) (entry : HistoryEntry) :
    List HistoryEntry :=
  history ++ [entry]

/-- The parts of `st.session_state` the conversation flow uses. -/
structure SessionState where
  conversation_id : Option Json
  message_id : Option Json
  last_prompt : Option String

/-- What a submit handler leaves behind: the session state, the stored chat
history, and the `(conversation_id, message_id)` pair handed to
`poll_genie_message` (none when no poll is started). -/
structure HandlerOutcome where
  state : SessionState
  history : List HistoryEntry
  pollTarget : Option (Json × Json)

/-- The `if submitted and prompt:` block: call `start_conversation`; when it
returns a response, read `conversation_id` and `message_id` from it, store
them in the session, append one history entry, and poll the new message.
`.error` marks a `KeyError` that would abort the handler before the append. -/
def handle_prompt_submitted (prompt space_id : String) (now : Nat) (user : String)
    (res : HttpResponse) (s : SessionState) (history : List HistoryEntry) :
    Except String HandlerOutcome :=
  match (start_conversation res).ret with
  | none => Except.ok ⟨s, history, none⟩
  | some conv =>
    match conv.getKey "conversation_id" with
    | none => Except.error "KeyError: conversation_id"
    | some cid =>
      match conv.getKey "message_id" with
      | none => Except.error "KeyError: message_id"
      | some mid =>
        Except.ok ⟨⟨some cid, some mid, some prompt⟩,
          append_chat_history history ⟨prompt, cid, mid, space_id, now, user⟩,
          some (cid, mid)⟩

/-- The `if followup_submitted and follow_up:` block, reachable only when
the session holds a conversation and message id: call
`send_followup_message`; when it returns a response, its `message_id`
becomes the session's current message, one history entry is appended, and
the new message is polled on the unchanged conversation id. -/
def handle_followup_submitted (follow_up space_id : String) (now : Nat) (user : String)
    (res : HttpResponse) (s : SessionState) (history : List HistoryEntry) :
    Except String HandlerOutcome :=
  match s.conversation_id, s.message_id with
  | some cid, some _ =>
    (match (send_followup_message res).ret with
     | none => Except.ok ⟨s, history, none⟩
     | some response =>
       match response.getKey "message_id" with
       | none => Except.error "KeyError: message_id"
       | some mid =>
         Except.ok ⟨⟨some cid, some mid, s.last_prompt⟩,
           append_chat_history history ⟨follow_up, cid, mid, space_id, now, user⟩,
           some (cid, mid)⟩)
  | _, _ => Except.ok ⟨s, history, none⟩

/-! ## Lemmas about the polling loop -/

lemma pollLoop_unfold (service : Nat → HttpResponse) (poll_interval timeout : Nat)
    (hi : 0 < poll_interval) (i : Nat) :
    pollLoop service poll_interval timeout hi i =
      if i * poll_interval < timeout then
        let r := service i
        if r.status ≠ 200 then (PollResult.transportError r.status r.body, 1)
        else if isTerminalStatus (r.json.getKey "status") then (PollResult.ok r.json, 1)
        else
          let p := pollLoop service poll_interval timeout hi (i + 1)
          (p.1, p.2 + 1)
      else (PollResult.timeout, 0) := by
  rw [pollLoop, dite_eq_ite]

lemma pollLoop_fixture_ok (service : Nat → HttpResponse) (N poll_interval timeout : Nat)
    (hi : 0 < poll_interval) (hN : 0 < N)
    (h200 : ∀ k, k < N → (service k).status = 200)
    (hrun : ∀ k, k + 1 < N → isTerminalStatus ((service k).json.getKey "status") = false)
    (hterm : isTerminalStatus ((service (N - 1)).json.getKey "status") = true)
    (hlt : (N - 1) * poll_interval < timeout) :
    ∀ d i, i + d = N - 1 →
      pollLoop service poll_interval timeout hi i =
        (PollResult.ok ((service (N - 1)).json), d + 1) := by
  intro d
  induction d with
  | zero =>
    intro i hi0
    have hieq : i = N - 1 := by omega
    subst hieq
    rw [pollLoop_unfold, if_pos hlt]
    simp [h200 (N - 1) (by omega), hterm]
  | succ d ih =>
    intro i hid
    have hiN : i + 1 < N := by omega
    have hle : i * poll_interval ≤ (N - 1) * poll_interval :=
      Nat.mul_le_mul_right poll_interval (by omega)
    rw [pollLoop_unfold, if_pos (by omega)]
    simp [h200 i (by omega), hrun i hiN, ih (i + 1) (by omega)]

lemma pollLoop_fixture_timeout (service : Nat → HttpResponse) (N poll_interval timeout : Nat)
    (hi : 0 < poll_interval)
    (h200 : ∀ k, k < N → (service k).status = 200)
    (hrun : ∀ k, k + 1 < N → isTerminalStatus ((service k).json.getKey "status") = false)
    (hge : timeout ≤ (N - 1) * poll_interval) :
    ∀ m i, timeout - i * poll_interval ≤ m →
      (pollLoop service poll_interval timeout hi i).1 = PollResult.timeout := by
  intro m
  induction m with
  | zero =>
    intro i him
    rw [pollLoop_unfold, if_neg (by omega)]
  | succ m ih =>
    intro i him
    by_cases hc : i * poll_interval < timeout
    · have hiN : i < N - 1 :=
        lt_of_mul_lt_mul_right (lt_of_lt_of_le hc hge) (Nat.zero_le _)
      have hsucc : (i + 1) * poll_interval = i * poll_interval + poll_interval :=
        Nat.succ_mul i poll_interval
      rw [pollLoop_unfold, if_pos hc]
      simp [h200 i (by omega), hrun i (by omega), ih (i + 1) (by omega)]
    · rw [pollLoop_unfold, if_neg hc]

lemma pollLoop_ok_terminal (service : Nat → HttpResponse) (poll_interval timeout : Nat)
    (hi : 0 < poll_interval) :
    ∀ m i msg, timeout - i * poll_interval ≤ m →
      (pollLoop service poll_interval timeout hi i).1 = PollResult.ok msg →
      isTerminalStatus (msg.getKey "status") = true := by
  intro m
  induction m with
  | zero =>
    intro i msg him h
    rw [pollLoop_unfold, if_neg (by omega)] at h
    exact absurd h (by simp)
  | succ m ih =>
    intro i msg him h
    by_cases hc : i * poll_interval < timeout
    · rw [pollLoop_unfold, if_pos hc] at h
      by_cases hs : (service i).status = 200
      · by_cases ht : isTerminalStatus ((service i).json.getKey "status") = true
        · simp [hs, ht] at h
          rw [← h]
          exact ht
        · have hsucc : (i + 1) * poll_interval = i * poll_interval + poll_interval :=
            Nat.succ_mul i poll_interval
          simp [hs, ht] at h
          exact ih (i + 1) msg (by omega) h
      · simp [hs] at h
    · rw [pollLoop_unfold, if_neg hc] at h
      exact absurd h (by simp)

lemma pollLoop_transport (service : Nat → HttpResponse) (poll_interval timeout k : Nat)
    (hi : 0 < poll_interval)
    (h200 : ∀ j, j < k → (service j).status = 200)
    (hrun : ∀ j, j < k → isTerminalStatus ((service j).json.getKey "status") = false)
    (hbad : (service k).status ≠ 200)
    (hk : k * poll_interval < timeout) :
    ∀ d i, i + d = k →
      pollLoop service poll_interval timeout hi i =
        (PollResult.transportError (service k).status (service k).body, d + 1) := by
  intro d
  induction d with
  | zero =>
    intro i hi0
    have hieq : i = k := by omega
    subst hieq
    rw [pollLoop_unfold, if_pos hk]
    simp [hbad]
  | succ d ih =>
    intro i hid
    have hik : i < k := by omega
    have hle : i * poll_interval ≤ k * poll_interval :=
      Nat.mul_le_mul_right poll_interval (by omega)
    rw [pollLoop_unfold, if_pos (by omega)]
    simp [h200 i hik, hrun i hik, ih (i + 1) (by omega)]

lemma isTerminalStatus_true (o : Option Json) (h : isTerminalStatus o = true) :
    o = some (Json.str "COMPLETED") ∨ o = some (Json.str "FAILED") := by
  match o with
  | none => simp [isTerminalStatus] at h
  | some (Json.str s) =>
    simp [isTerminalStatus] at h
    rcases h with h | h
    · subst h; left; rfl
    · subst h; right; rfl
  | some Json.null => simp [isTerminalStatus] at h
  | some (Json.num n) => simp [isTerminalStatus] at h
  | some (Json.bool b) => simp [isTerminalStatus] at h
  | some (Json.arr xs) => simp [isTerminalStatus] at h
  | some (Json.obj fs) => simp [isTerminalStatus] at h

/-! ## Fixture services -/

/-- Fixture service: terminal (COMPLETED) already on the first fetch. -/
def fixtureDone : Nat → HttpResponse := fun _ =>
  ⟨200, "", Json.obj [("status", Json.str "COMPLETED")]⟩

/-- Fixture service: RUNNING on the first fetch, COMPLETED from the second. -/
def fixtureRun2 : Nat → HttpResponse := fun i =>
  if i = 0 then ⟨200, "", Json.obj [("status", Json.str "RUNNING")]⟩
  else ⟨200, "", Json.obj [("status", Json.str "COMPLETED")]⟩

/-- Fixture service: RUNNING forever. -/
def fixtureRunning : Nat → HttpResponse := fun _ =>
  ⟨200, "", Json.obj [("status", Json.str "RUNNING")]⟩

/-- Fixture service: HTTP 500 on every fetch. -/
def fixtureError : Nat → HttpResponse := fun _ => ⟨500, "oops", Json.null⟩

/-! ## Claims about the polling loop -/

/-- C1 (counterexample): against a fixture that is terminal on the very
first fetch (N = 1) with pollIntervalSeconds = 1 and timeoutSeconds = 1,
`N * pollIntervalSeconds < timeoutSeconds` fails, yet `poll_genie_message`
returns the terminal message rather than the TimeoutFailure the claim
predicts. -/
theorem C1_poll_timing_counterexample :
    (fixtureDone 0).status = 200 ∧
      isTerminalStatus ((fixtureDone 0).json.getKey "status") = true ∧
      ¬ (1 * 1 < 1) ∧
      poll_genie_message fixtureDone 1 1 Nat.one_pos =
        PollResult.ok ((fixtureDone 0).json) ∧
      poll_genie_message fixtureDone 1 1 Nat.one_pos ≠ PollResult.timeout := by
  have h : poll_genie_message fixtureDone 1 1 Nat.one_pos =
      PollResult.ok ((fixtureDone 0).json) := by
    simp [poll_genie_message, pollLoop, fixtureDone, isTerminalStatus, Json.getKey]
  refine ⟨rfl, by simp [fixtureDone, isTerminalStatus, Json.getKey], by decide, h, ?_⟩
  rw [h]
  intro hh
  exact PollResult.noConfusion hh

/-- C1 (amended): for every fixture service that first returns a terminal
status (COMPLETED or FAILED) on its N-th fetch, `poll_genie_message` with
positive `poll_interval` returns that terminal message — after exactly N
fetches — if `(N - 1) * poll_interval < timeout` (the N-th fetch happens at
elapsed time `(N - 1) * poll_interval`), and raises the timeout failure
otherwise. -/
theorem C1_poll_fixture_timing_amended (service : Nat → HttpResponse)
    (N poll_interval timeout : Nat) (hi : 0 < poll_interval) (hN : 0 < N)
    (h200 : ∀ k, k < N → (service k).status = 200)
    (hrun : ∀ k, k + 1 < N → isTerminalStatus ((service k).json.getKey "status") = false)
    (hterm : isTerminalStatus ((service (N - 1)).json.getKey "status") = true) :
    if (N - 1) * poll_interval < timeout then
      poll_genie_message service poll_interval timeout hi =
          PollResult.ok ((service (N - 1)).json) ∧
        poll_fetch_count service poll_interval timeout hi = N
    else poll_genie_message service poll_interval timeout hi = PollResult.timeout := by
  by_cases hlt : (N - 1) * poll_interval < timeout
  · rw [if_pos hlt]
    have h := pollLoop_fixture_ok service N poll_interval timeout hi hN h200 hrun hterm
      hlt (N - 1) 0 (by omega)
    constructor
    · simp [poll_genie_message, h]
    · simp [poll_fetch_count, h]
      omega
  · rw [if_neg hlt]
    exact pollLoop_fixture_timeout service N poll_interval timeout hi h200 hrun
      (by omega) timeout 0 (by omega)

/-- C1 witness: the two-fetch fixture (RUNNING then COMPLETED) with the
default interval 2 and timeout 300 returns the COMPLETED message after
exactly 2 fetches. -/
theorem C1_poll_fixture_timing_amended_witness :
    poll_genie_message fixtureRun2 2 300 Nat.zero_lt_two =
        PollResult.ok (Json.obj [("status", Json.str "COMPLETED")]) ∧
      poll_fetch_count fixtureRun2 2 300 Nat.zero_lt_two = 2 := by
  have h := C1_poll_fixture_timing_amended fixtureRun2 2 2 300 Nat.zero_lt_two
    (by decide)
    (by intro k hk; by_cases h0 : k = 0 <;> simp [fixtureRun2, h0])
    (by
      intro k hk
      have hk0 : k = 0 := by omega
      subst hk0
      simp [fixtureRun2, isTerminalStatus, Json.getKey])
    (by simp [fixtureRun2, isTerminalStatus, Json.getKey])
  rw [if_pos (by norm_num)] at h
  simpa [fixtureRun2] using h

/-- C2 (confirmed): `poll_genie_message` never returns a non-terminal
message as success — whatever the service responds, a normally returned
message has status COMPLETED or FAILED. -/
theorem C2_poll_returns_only_terminal (service : Nat → HttpResponse)
    (poll_interval timeout : Nat) (hi : 0 < poll_interval) (msg : Json)
    (h : poll_genie_message service poll_interval timeout hi = PollResult.ok msg) :
    msg.getKey "status" = some (Json.str "COMPLETED") ∨
      msg.getKey "status" = some (Json.str "FAILED") :=
  isTerminalStatus_true _
    (pollLoop_ok_terminal service poll_interval timeout hi timeout 0 msg (by omega) h)

/-- C2 witness: the always-COMPLETED fixture returns a message whose status
is terminal. -/
theorem C2_poll_returns_only_terminal_witness :
    (Json.obj [("status", Json.str "COMPLETED")]).getKey "status" =
        some (Json.str "COMPLETED") ∨
      (Json.obj [("status", Json.str "COMPLETED")]).getKey "status" =
        some (Json.str "FAILED") :=
  C2_poll_returns_only_terminal fixtureDone 1 300 Nat.one_pos _
    (by simp [poll_genie_message, pollLoop, fixtureDone, isTerminalStatus, Json.getKey])

/-- C8 (confirmed): a run of `poll_genie_message` that exceeds the timeout
ends in a failure value distinct from any transport (non-200) failure
value, so a caller can tell the two apart. -/
theorem C8_timeout_distinct_from_transport
    (s₁ s₂ : Nat → HttpResponse) (p₁ t₁ p₂ t₂ : Nat)
    (h₁ : 0 < p₁) (h₂ : 0 < p₂) (code : Nat) (body : String)
    (htime : poll_genie_message s₁ p₁ t₁ h₁ = PollResult.timeout)
    (htrans : poll_genie_message s₂ p₂ t₂ h₂ = PollResult.transportError code body) :
    poll_genie_message s₁ p₁ t₁ h₁ ≠ poll_genie_message s₂ p₂ t₂ h₂ := by
  rw [htime, htrans]
  intro h
  exact PollResult.noConfusion h

/-- C8 witness: a timed-out run against the always-RUNNING fixture differs
from a transport-failed run against the HTTP-500 fixture. -/
theorem C8_timeout_distinct_from_transport_witness :
    poll_genie_message fixtureRunning 1 1 Nat.one_pos ≠
      poll_genie_message fixtureError 2 300 Nat.zero_lt_two :=
  C8_timeout_distinct_from_transport fixtureRunning fixtureError 1 1 2 300
    Nat.one_pos Nat.zero_lt_two 500 "oops"
    (by simp [poll_genie_message, pollLoop, fixtureRunning, isTerminalStatus, Json.getKey])
    (by simp [poll_genie_message, pollLoop, fixtureError])

/-- C6 (counterexample): two different non-2xx responses to the query-result
call produce identical failure values — `fetch_attachment` returns `None`
and shows the fixed message "Failed to fetch attachment result" — so its
failure does not carry the status code and response body text. -/
theorem C6_fetch_attachment_failure_counterexample :
    fetch_attachment ⟨404, "not found", Json.null⟩ =
        fetch_attachment ⟨500, "server error", Json.null⟩ ∧
      (fetch_attachment ⟨404, "not found", Json.null⟩).ret = none ∧
      (fetch_attachment ⟨500, "server error", Json.null⟩).ret = none ∧
      ¬ (404 = 500 ∧ "not found" = "server error") :=
  ⟨rfl, rfl, rfl, by decide⟩

/-- C6 (amended): a non-200 response to `start_conversation`,
`send_followup_message`, or a poll fetch yields a failure value carrying
the status code and the response body text, with no automatic retry (the
failing poll fetch is the last request of its run); a non-200 response to
`fetch_attachment` also yields a failure and no retry, but its failure
value carries neither the status code nor the body. -/
theorem C6_transport_failures_amended :
    (∀ res : HttpResponse, res.status ≠ 200 →
        start_conversation res =
          ⟨none, some (UiError.startFailed res.status res.body)⟩) ∧
      (∀ res : HttpResponse, res.status ≠ 200 →
        send_followup_message res =
          ⟨none, some (UiError.followupFailed res.status res.body)⟩) ∧
      (∀ res : HttpResponse, res.status ≠ 200 →
        fetch_attachment res = ⟨none, some UiError.fetchAttachmentFailed⟩) ∧
      (∀ (service : Nat → HttpResponse) (poll_interval timeout k : Nat)
          (hi : 0 < poll_interval),
        (∀ j, j < k → (service j).status = 200) →
        (∀ j, j < k → isTerminalStatus ((service j).json.getKey "status") = false) →
        (service k).status ≠ 200 → k * poll_interval < timeout →
        poll_genie_message service poll_interval timeout hi =
            PollResult.transportError (service k).status (service k).body ∧
          poll_fetch_count service poll_interval timeout hi = k + 1) := by
  refine ⟨?_, ?_, ?_, ?_⟩
  · intro res h
    simp [start_conversation, h]
  · intro res h
    simp [send_followup_message, h]
  · intro res h
    simp [fetch_attachment, h]
  · intro service poll_interval timeout k hi h200 hrun hbad hk
    have h := pollLoop_transport service poll_interval timeout k hi h200 hrun hbad hk
      k 0 (by omega)
    exact ⟨by simp [poll_genie_message, h], by simp [poll_fetch_count, h]⟩

/-- C6 witness: a 503 on start carries its code and body; a 500 on the
first poll fetch ends the run after that single request, carrying 500 and
the body "oops". -/
theorem C6_transport_failures_amended_witness :
    start_conversation ⟨503, "busy", Json.null⟩ =
        ⟨none, some (UiError.startFailed 503 "busy")⟩ ∧
      poll_genie_message fixtureError 2 300 Nat.zero_lt_two =
          PollResult.transportError 500 "oops" ∧
        poll_fetch_count fixtureError 2 300 Nat.zero_lt_two = 0 + 1 := by
  refine ⟨C6_transport_failures_amended.1 ⟨503, "busy", Json.null⟩ (by decide), ?_⟩
  have h := C6_transport_failures_amended.2.2.2 fixtureError 2 300 0 Nat.zero_lt_two
    (by intro j hj; omega)
    (by intro j hj; omega)
    (by simp [fixtureError])
    (by norm_num)
  simpa [fixtureError] using h

/-! ## Claims about result extraction -/

/-- Some column object of the schema's column list lacks a `name` key. -/
def columnsMissingName : Json → Bool
  | Json.arr colJs => colJs.any fun c => (c.getKey "name").isNone
  | _ => false

/-- Some required key of the query-result shape
`{statement_response: {manifest: {schema: {columns: [{name}...]}}, result:
{data_array: ...}}}` is missing from the response: `statement_response`,
`manifest`, `schema`, `columns`, some column's `name`, `result`, or
`data_array`. -/
def missingRequiredKey (genie_result : Json) : Bool :=
  match genie_result.getKey "statement_response" with
  | none => true
  | some statement =>
    match statement.getKey "manifest" with
    | none => true
    | some manifest =>
      match manifest.getKey "schema" with
      | none => true
      | some schema =>
        match schema.getKey "columns" with
        | none => true
        | some columnsJson =>
          columnsMissingName columnsJson ||
            ((statement.getKey "result").bind fun result =>
              result.getKey "data_array").isNone

lemma namesOf_some_all_names :
    ∀ (cs : List Json) (ns : List Json), namesOf cs = some ns →
      (cs.any fun c => (c.getKey "name").isNone) = false := by
  intro cs
  induction cs with
  | nil =>
    intro ns _
    rfl
  | cons c cs ih =>
    intro ns h
    cases hc : c.getKey "name" with
    | none =>
      rw [namesOf, hc] at h
      exact absurd h (by simp)
    | some n =>
      rw [namesOf, hc] at h
      cases hcs : namesOf cs with
      | none =>
        rw [hcs] at h
        exact absurd h (by simp)
      | some ns' =>
        simp [hc, ih ns' hcs]

/-- C3 (confirmed): whenever any required key of the query-result shape is
missing from the service response — `statement_response`, `manifest`,
`schema`, `columns`, a column's `name`, `result`, or `data_array` —
`extract_dataframe_from_genie_result` returns the empty DataFrame instead
of propagating an exception, so the caller can continue the session. -/
theorem C3_missing_required_key_yields_empty (genie_result : Json)
    (h : missingRequiredKey genie_result = true) :
    extract_dataframe_from_genie_result genie_result = DataFrame.empty := by
  suffices hs : ∃ e, parseGenieResult genie_result = Except.error e by
    obtain ⟨e, he⟩ := hs
    simp [extract_dataframe_from_genie_result, he]
  cases h1 : genie_result.getKey "statement_response" with
  | none =>
    exact ⟨"KeyError: statement_response", by simp [parseGenieResult, h1]⟩
  | some statement =>
    cases h2 : statement.getKey "manifest" with
    | none => exact ⟨"KeyError: manifest", by simp [parseGenieResult, h1, h2]⟩
    | some manifest =>
      cases h3 : manifest.getKey "schema" with
      | none => exact ⟨"KeyError: schema", by simp [parseGenieResult, h1, h2, h3]⟩
      | some schema =>
        cases h4 : schema.getKey "columns" with
        | none => exact ⟨"KeyError: columns", by simp [parseGenieResult, h1, h2, h3, h4]⟩
        | some columnsJson =>
          simp only [missingRequiredKey, h1, h2, h3, h4, Bool.or_eq_true] at h
          cases columnsJson with
          | null =>
            exact ⟨"TypeError: columns not a list",
              by simp [parseGenieResult, h1, h2, h3, h4]⟩
          | str s =>
            exact ⟨"TypeError: columns not a list",
              by simp [parseGenieResult, h1, h2, h3, h4]⟩
          | num n =>
            exact ⟨"TypeError: columns not a list",
              by simp [parseGenieResult, h1, h2, h3, h4]⟩
          | bool b =>
            exact ⟨"TypeError: columns not a list",
              by simp [parseGenieResult, h1, h2, h3, h4]⟩
          | obj fs =>
            exact ⟨"TypeError: columns not a list",
              by simp [parseGenieResult, h1, h2, h3, h4]⟩
          | arr colJs =>
            cases h5 : namesOf colJs with
            | none =>
              exact ⟨"KeyError: name", by simp [parseGenieResult, h1, h2, h3, h4, h5]⟩
            | some columns =>
              rcases h with h | h
              · rw [columnsMissingName,
                  namesOf_some_all_names colJs columns h5] at h
                exact absurd h (by simp)
              · cases h6 : statement.getKey "result" with
                | none =>
                  exact ⟨"KeyError: result",
                    by simp [parseGenieResult, h1, h2, h3, h4, h5, h6]⟩
                | some result =>
                  rw [h6, Option.some_bind, Option.isNone_iff_eq_none] at h
                  exact ⟨"KeyError: data_array",
                    by simp [parseGenieResult, h1, h2, h3, h4, h5, h6, h]⟩

/-- A well-formed schema whose `result` object lacks `data_array`. -/
def demoMalformedResult : Json :=
  Json.obj [("statement_response", Json.obj
    [("manifest", Json.obj [("schema", Json.obj
        [("columns", Json.arr [Json.obj [("name", Json.str "date")]])])]),
     ("result", Json.obj [])])]

/-- A response whose `statement_response.result.data_array` chain is intact
but whose `manifest` key is missing. -/
def demoMissingManifest : Json :=
  Json.obj [("statement_response", Json.obj
    [("result", Json.obj [("data_array", Json.arr [])])])]

/-- C3 witness: a response missing `data_array` and a response missing
`manifest` (with the `data_array` chain intact) both extract to the empty
DataFrame. -/
theorem C3_missing_required_key_yields_empty_witness :
    extract_dataframe_from_genie_result demoMalformedResult = DataFrame.empty ∧
      extract_dataframe_from_genie_result demoMissingManifest = DataFrame.empty :=
  ⟨C3_missing_required_key_yields_empty demoMalformedResult rfl,
    C3_missing_required_key_yields_empty demoMissingManifest rfl⟩

/-! ## Claims about attachment extraction -/

/-- C4 (confirmed): when the attachment loop of `display_genie_message`
completes, the attachments it renders appear in exactly the order of the
service response (the order-preserving `filterMap` of the per-attachment
classification), and a Query-kind attachment whose source carries a `query`
SQL string and an `attachment_id` is classified with exactly that SQL and
that attachment id. -/
theorem C4_extract_attachments_order_and_query_fields
    (atts : List Json) (out : List ExtractedAttachment)
    (h : extractAttachments atts = Except.ok out) :
    out = atts.filterMap classified ∧
      (∀ a query_info sql aid, a.getKey "text" = none →
        a.getKey "query" = some query_info →
        query_info.getKey "query" = some sql →
        a.getKey "attachment_id" = some aid →
        classified a = some (ExtractedAttachment.query sql
          (query_info.getKeyD "description" (Json.str "")) (some aid))) := by
  constructor
  · induction atts generalizing out with
    | nil =>
      simp only [extractAttachments, Except.ok.injEq] at h
      simp [← h]
    | cons a rest ih =>
      cases hc : classifyAttachment a with
      | error e =>
        rw [extractAttachments, hc] at h
        exact absurd h (by simp)
      | ok o =>
        cases o with
        | none =>
          rw [extractAttachments, hc] at h
          have hrec := ih out h
          simp [List.filterMap_cons, classified, hc, hrec]
        | some x =>
          rw [extractAttachments, hc] at h
          cases hr : extractAttachments rest with
          | error e =>
            rw [hr] at h
            exact absurd h (by simp)
          | ok xs =>
            rw [hr] at h
            simp only [Except.ok.injEq] at h
            have hrec := ih xs hr
            simp [List.filterMap_cons, classified, hc, ← h, hrec]
  · intro a query_info sql aid htext hq hsql haid
    simp [classified, classifyAttachment, htext, hq, hsql, haid]

/-- The two attachments of the spec's scenarios: one text attachment and
one query attachment with SQL and an attachment id. -/
def demoAttachments : List Json :=
  [Json.obj [("text", Json.obj [("content", Json.str "Volume is 1.2B")])],
   Json.obj [("query", Json.obj [("query", Json.str "select 1"),
       ("description", Json.str "d")]),
     ("attachment_id", Json.str "a1")]]

/-- C4 witness: the demo message extracts, in order, its text attachment and
its query attachment with the source SQL and attachment id. -/
theorem C4_extract_attachments_order_and_query_fields_witness :
    [ExtractedAttachment.text (Json.str "Volume is 1.2B"),
        ExtractedAttachment.query (Json.str "select 1") (Json.str "d")
          (some (Json.str "a1"))] =
      demoAttachments.filterMap classified :=
  (C4_extract_attachments_order_and_query_fields demoAttachments _ rfl).1

/-- C10 (confirmed): attachment classification is decided by key presence
with `text` taking priority — an attachment with a `text` key is rendered
as a Text attachment even when it also has a `query` key, and then no
query result is fetched; an attachment with neither key is silently
skipped, fetching nothing. -/
theorem C10_attachment_classification_priority :
    (∀ a t content, a.getKey "text" = some t → t.getKey "content" = some content →
        classifyAttachment a = Except.ok (some (ExtractedAttachment.text content)) ∧
          attachmentFetches a = []) ∧
      (∀ a, a.getKey "text" = none → a.getKey "query" = none →
        classifyAttachment a = Except.ok none ∧ attachmentFetches a = []) := by
  constructor
  · intro a t content ht hc
    exact ⟨by simp [classifyAttachment, ht, hc], by simp [attachmentFetches, ht]⟩
  · intro a ht hq
    exact ⟨by simp [classifyAttachment, ht, hq], by simp [attachmentFetches, ht, hq]⟩

/-- An attachment carrying both a `text` and a `query` key. -/
def demoBothAttachment : Json :=
  Json.obj [("text", Json.obj [("content", Json.str "hello")]),
    ("query", Json.obj [("query", Json.str "select 2")])]

/-- C10 witness: the both-keys attachment is classified as Text and fetches
nothing; the empty attachment is skipped and fetches nothing. -/
theorem C10_attachment_classification_priority_witness :
    (classifyAttachment demoBothAttachment =
          Except.ok (some (ExtractedAttachment.text (Json.str "hello"))) ∧
        attachmentFetches demoBothAttachment = []) ∧
      (classifyAttachment (Json.obj []) = Except.ok none ∧
        attachmentFetches (Json.obj []) = []) :=
  ⟨C10_attachment_classification_priority.1 demoBothAttachment
      (Json.obj [("content", Json.str "hello")]) (Json.str "hello") rfl rfl,
    C10_attachment_classification_priority.2 (Json.obj []) rfl rfl⟩

/-! ## Claims about history recording and the follow-up flow -/

/-- C5 (confirmed): after a successful start and after a successful
follow-up, exactly one history entry — prompt, conversation id, message id,
space id, timestamp, user — referencing the returned message id is appended
to the history; when the call fails, the history is unchanged and no poll
is started. -/
theorem C5_history_recorded_exactly_on_success :
    (∀ (prompt space_id : String) (now : Nat) (user : String) (res : HttpResponse)
        (s : SessionState) (history : List HistoryEntry) (cid mid : Json),
      res.status = 200 →
      res.json.getKey "conversation_id" = some cid →
      res.json.getKey "message_id" = some mid →
      handle_prompt_submitted prompt space_id now user res s history =
        Except.ok ⟨⟨some cid, some mid, some prompt⟩,
          history ++ [⟨prompt, cid, mid, space_id, now, user⟩], some (cid, mid)⟩) ∧
      (∀ (prompt space_id : String) (now : Nat) (user : String) (res : HttpResponse)
          (s : SessionState) (history : List HistoryEntry),
        res.status ≠ 200 →
        handle_prompt_submitted prompt space_id now user res s history =
          Except.ok ⟨s, history, none⟩) ∧
      (∀ (follow_up space_id : String) (now : Nat) (user : String) (res : HttpResponse)
          (s : SessionState) (history : List HistoryEntry) (cid mid0 mid : Json),
        s.conversation_id = some cid → s.message_id = some mid0 →
        res.status = 200 →
        res.json.getKey "message_id" = some mid →
        handle_followup_submitted follow_up space_id now user res s history =
          Except.ok ⟨⟨some cid, some mid, s.last_prompt⟩,
            history ++ [⟨follow_up, cid, mid, space_id, now, user⟩], some (cid, mid)⟩) ∧
      (∀ (follow_up space_id : String) (now : Nat) (user : String) (res : HttpResponse)
          (s : SessionState) (history : List HistoryEntry) (cid mid0 : Json),
        s.conversation_id = some cid → s.message_id = some mid0 →
        res.status ≠ 200 →
        handle_followup_submitted follow_up space_id now user res s history =
          Except.ok ⟨s, history, none⟩) := by
  refine ⟨?_, ?_, ?_, ?_⟩
  · intro prompt space_id now user res s history cid mid h200 hcid hmid
    simp [handle_prompt_submitted, start_conversation, h200, hcid, hmid,
      append_chat_history]
  · intro prompt space_id now user res s history h200
    simp [handle_prompt_submitted, start_conversation, h200]
  · intro follow_up space_id now user res s history cid mid0 mid hc hm h200 hmid
    simp [handle_followup_submitted, send_followup_message, hc, hm, h200, hmid,
      append_chat_history]
  · intro follow_up space_id now user res s history cid mid0 hc hm h200
    simp [handle_followup_submitted, send_followup_message, hc, hm, h200]

/-- The start-conversation response of the spec's scenario. -/
def demoConvJson : Json :=
  Json.obj [("conversation_id", Json.str "c1"), ("message_id", Json.str "m1")]

/-- C5 witness: a successful start appends exactly the one entry
referencing message "m1"; a failed start leaves the history unchanged. -/
theorem C5_history_recorded_exactly_on_success_witness :
    handle_prompt_submitted "What is the volume in web3?" "s1" 5 "u@x"
        ⟨200, "", demoConvJson⟩ ⟨none, none, none⟩ [] =
      Except.ok ⟨⟨some (Json.str "c1"), some (Json.str "m1"),
          some "What is the volume in web3?"⟩,
        [] ++ [⟨"What is the volume in web3?", Json.str "c1", Json.str "m1",
            "s1", 5, "u@x"⟩],
        some (Json.str "c1", Json.str "m1")⟩ ∧
      handle_prompt_submitted "What is the volume in web3?" "s1" 5 "u@x"
          ⟨500, "oops", Json.null⟩ ⟨none, none, none⟩ [] =
        Except.ok ⟨⟨none, none, none⟩, [], none⟩ :=
  ⟨C5_history_recorded_exactly_on_success.1 "What is the volume in web3?" "s1" 5
      "u@x" ⟨200, "", demoConvJson⟩ ⟨none, none, none⟩ [] (Json.str "c1")
      (Json.str "m1") rfl rfl rfl,
    C5_history_recorded_exactly_on_success.2.1 "What is the volume in web3?" "s1"
      5 "u@x" ⟨500, "oops", Json.null⟩ ⟨none, none, none⟩ [] (by decide)⟩

/-- C7 (confirmed): after a successful follow-up, the response's message id
becomes the session's current message; the subsequent poll and the recorded
history entry use the new message id, while the conversation id they use is
unchanged. -/
theorem C7_followup_updates_current_message
    (follow_up space_id : String) (now : Nat) (user : String)
    (res : HttpResponse) (s : SessionState) (history : List HistoryEntry)
    (cid mid0 mid : Json)
    (hc : s.conversation_id = some cid) (hm : s.message_id = some mid0)
    (h200 : res.status = 200)
    (hmid : res.json.getKey "message_id" = some mid) :
    handle_followup_submitted follow_up space_id now user res s history =
        Except.ok ⟨⟨some cid, some mid, s.last_prompt⟩,
          append_chat_history history ⟨follow_up, cid, mid, space_id, now, user⟩,
          some (cid, mid)⟩ ∧
      (⟨some cid, some mid, s.last_prompt⟩ : SessionState).conversation_id =
        s.conversation_id ∧
      (⟨some cid, some mid, s.last_prompt⟩ : SessionState).message_id = some mid := by
  refine ⟨?_, by rw [hc], rfl⟩
  simp [handle_followup_submitted, send_followup_message, hc, hm, h200, hmid]

/-- C7 witness: the spec's scenario — a follow-up on conversation "c1"
answered with message id "m2" updates the current message to "m2", polls
("c1", "m2"), and records exactly one entry referencing "m2". -/
theorem C7_followup_updates_current_message_witness :
    handle_followup_submitted "And in web2?" "s1" 7 "u@x"
        ⟨200, "", Json.obj [("message_id", Json.str "m2")]⟩
        ⟨some (Json.str "c1"), some (Json.str "m1"),
          some "What is the volume in web3?"⟩ [] =
      Except.ok ⟨⟨some (Json.str "c1"), some (Json.str "m2"),
          some "What is the volume in web3?"⟩,
        append_chat_history []
          ⟨"And in web2?", Json.str "c1", Json.str "m2", "s1", 7, "u@x"⟩,
        some (Json.str "c1", Json.str "m2")⟩ ∧
      (⟨some (Json.str "c1"), some (Json.str "m2"),
          some "What is the volume in web3?"⟩ : SessionState).conversation_id =
        some (Json.str "c1") ∧
      (⟨some (Json.str "c1"), some (Json.str "m2"),
          some "What is the volume in web3?"⟩ : SessionState).message_id =
        some (Json.str "m2") :=
  C7_followup_updates_current_message "And in web2?" "s1" 7 "u@x"
    ⟨200, "", Json.obj [("message_id", Json.str "m2")]⟩
    ⟨some (Json.str "c1"), some (Json.str "m1"),
      some "What is the volume in web3?"⟩ [] (Json.str "c1") (Json.str "m1")
    (Json.str "m2") rfl rfl rfl rfl

/-- C9 (confirmed): the history sink is append-only — appending preserves
every prior entry unchanged, at its original position, places the new entry
at the end, and the submit handlers never update or delete an existing
entry: whatever history a handler leaves behind extends the prior history. -/
theorem C9_history_append_only :
    (∀ (history : List HistoryEntry) (entry : HistoryEntry),
        (append_chat_history history entry).take history.length = history) ∧
      (∀ (history : List HistoryEntry) (entry : HistoryEntry),
        (append_chat_history history entry).length = history.length + 1) ∧
      (∀ (history : List HistoryEntry) (entry : HistoryEntry) (i : Nat),
        i < history.length →
        (append_chat_history history entry)[i]? = history[i]?) ∧
      (∀ (history : List HistoryEntry) (entry : HistoryEntry),
        (append_chat_history history entry).getLast? = some entry) ∧
      (∀ (prompt space_id : String) (now : Nat) (user : String) (res : HttpResponse)
          (s : SessionState) (history : List HistoryEntry) (o : HandlerOutcome),
        handle_prompt_submitted prompt space_id now user res s history = Except.ok o →
        o.history.take history.length = history) ∧
      (∀ (follow_up space_id : String) (now : Nat) (user : String) (res : HttpResponse)
          (s : SessionState) (history : List HistoryEntry) (o : HandlerOutcome),
        handle_followup_submitted follow_up space_id now user res s history =
          Except.ok o →
        o.history.take history.length = history) := by
  have htake : ∀ (history : List HistoryEntry) (entry : HistoryEntry),
      (append_chat_history history entry).take history.length = history := by
    intro history entry
    simp [append_chat_history, List.take_left]
  refine ⟨htake, ?_, ?_, ?_, ?_, ?_⟩
  · intro history entry
    simp [append_chat_history]
  · intro history entry i hlt
    simp [append_chat_history, List.getElem?_append, hlt]
  · intro history entry
    simp [append_chat_history]
  · intro prompt space_id now user res s history o h
    simp only [handle_prompt_submitted] at h
    split at h
    · cases h
      exact List.take_length history
    · split at h
      · exact Except.noConfusion h
      · split at h
        · exact Except.noConfusion h
        · cases h
          exact htake history _
  · intro follow_up space_id now user res s history o h
    simp only [handle_followup_submitted] at h
    split at h
    · split at h
      · cases h
        exact List.take_length history
      · split at h
        · exact Except.noConfusion h
        · cases h
          exact htake history _
    · cases h
      exact List.take_length history

/-- A first demo history entry. -/
def demoEntry0 : HistoryEntry := ⟨"p0", Json.str "c0", Json.str "m0", "s0", 1, "u0"⟩

/-- A second demo history entry. -/
def demoEntry1 : HistoryEntry := ⟨"p1", Json.str "c1", Json.str "m1", "s1", 2, "u1"⟩

/-- C9 witness: appending to a one-entry history keeps the old entry in
place and a successful start handler extends the prior history. -/
theorem C9_history_append_only_witness :
    (append_chat_history [demoEntry0] demoEntry1).take 1 = [demoEntry0] ∧
      (append_chat_history [demoEntry0] demoEntry1)[0]? = [demoEntry0][0]? ∧
      (append_chat_history [demoEntry0] demoEntry1).getLast? = some demoEntry1 ∧
      (HandlerOutcome.history
          ⟨⟨some (Json.str "c1"), some (Json.str "m1"), some "p"⟩,
            [demoEntry0] ++ [⟨"p", Json.str "c1", Json.str "m1", "s1", 5, "u"⟩],
            some (Json.str "c1", Json.str "m1")⟩).take 1 = [demoEntry0] :=
  ⟨C9_history_append_only.1 [demoEntry0] demoEntry1,
    C9_history_append_only.2.2.1 [demoEntry0] demoEntry1 0 Nat.one_pos,
    C9_history_append_only.2.2.2.1 [demoEntry0] demoEntry1,
    C9_history_append_only.2.2.2.2.1 "p" "s1" 5 "u" ⟨200, "", demoConvJson⟩
      ⟨none, none, none⟩ [demoEntry0] _ rfl⟩

end Genie
